import Mathlib

/-!
# Verification of the DailyNews CNN scraper

Shallow embedding of the extraction-and-classification pipeline of the
repository (files `main.py` and `news.py`, both defining a class
`CNNWorldScraper`, plus `agent.py`).  The two Python files are near-identical
variants; where their code differs the embedding keeps both versions, in the
namespaces `MainPy` (for `main.py`) and `NewsPy` (for `news.py`).

Python `datetime.date` values are modelled by `PyDate` (plain naturals with an
explicit validity predicate mirroring the `datetime` constructor's checks);
fallible operations return `Option`; the regular-expression searches performed
by `re.search` are embedded by a small matching engine specialised to the exact
patterns occurring in the source (see `matchToks` below).
-/

set_option autoImplicit false

/-! ## Python character classes and string helpers -/

/-- The character classes `\d`, `\s`, `\w` used by the source's regexes
(ASCII fragment, which covers every character the source's patterns and the
claims' inputs involve). -/
inductive CharCls where
  | digit
  | space
  | word
  deriving DecidableEq, Repr

/-- Membership in a character class: `\d` = decimal digit, `\s` = Python
whitespace, `\w` = alphanumeric or underscore. -/
def CharCls.mem : CharCls → Char → Bool
  | .digit, c => c.isDigit
  | .space, c => c = ' ' || c = '\t' || c = '\n' || c = '\r' || c = '\x0b' || c = '\x0c'
  | .word, c => c.isAlphanum || c = '_'

/-- Python's `needle in haystack` substring test, on character lists. -/
def containsSub (hay needle : List Char) : Bool :=
  if needle.isPrefixOf hay then true
  else
    match hay with
    | [] => false
    | _ :: rest => containsSub rest needle

/-- Python's `str.strip()` (with no argument): remove leading and trailing
whitespace. -/
def pyStrip (s : List Char) : List Char :=
  ((s.dropWhile (CharCls.mem .space)).reverse.dropWhile (CharCls.mem .space)).reverse

/-- Python's `int()` on a non-empty string of decimal digits. -/
def digitsToNat (s : List Char) : Nat :=
  s.foldl (fun a c => a * 10 + (c.toNat - '0'.toNat)) 0

/-! ## The regex engine

Each pattern in the source is a sequence of literal characters and quantified
character classes.  `matchToks` matches such a sequence at the start of the
input greedily and without backtracking: a quantified class always consumes
`min hi runLength` characters.  This coincides with Python's
leftmost-greedy-with-backtracking semantics for every pattern embedded here,
because in each of those patterns every quantified class is followed either by
the end of the pattern or by an item (literal or class) disjoint from the
class, so that consuming fewer than `runLength` characters always fails
immediately and consuming more than `hi` is impossible: the greedy choice is
the only viable one. -/

/-- One regex item: a literal character, or a character class repeated between
`lo` and `hi` times (`hi = none` meaning unbounded, i.e. `+` when `lo = 1`).
`cap` marks a capture group. -/
inductive RTok where
  | lit (ch : Char)
  | cls (c : CharCls) (lo : Nat) (hi : Option Nat) (cap : Bool)
  deriving Repr

/-- Match a token sequence at the start of `s`; return the captured groups in
order, or `none`. Trailing input is ignored (search, not full-match). -/
def matchToks : List RTok → List Char → Option (List (List Char))
  | [], _ => some []
  | .lit _ :: _, [] => none
  | .lit ch :: ts, x :: s => if x = ch then matchToks ts s else none
  | .cls c lo hi cap :: ts, s =>
    let run := s.takeWhile (CharCls.mem c)
    let k := match hi with
      | none => run.length
      | some h => min h run.length
    if k < lo then none
    else
      match matchToks ts (s.drop k) with
      | none => none
      | some caps => some (if cap then s.take k :: caps else caps)

/-- Python's `re.search`: try the pattern at every start position, leftmost
match wins. -/
def searchToks (ts : List RTok) (s : List Char) : Option (List (List Char)) :=
  match matchToks ts s with
  | some caps => some caps
  | none =>
    match s with
    | [] => none
    | _ :: rest => searchToks ts rest

/-! ## Calendar dates -/

/-- A Python `datetime.date` value (not intrinsically validated; see
`validDate`). -/
structure PyDate where
  year : Nat
  month : Nat
  day : Nat
  deriving DecidableEq, Repr

/-- Gregorian leap-year rule, as used by Python's `datetime`. -/
def isLeap (y : Nat) : Bool :=
  (y % 4 == 0 && y % 100 != 0) || y % 400 == 0

/-- Number of days in a month. -/
def daysInMonth (y m : Nat) : Nat :=
  if m = 2 then (if isLeap y then 29 else 28)
  else if m = 4 ∨ m = 6 ∨ m = 9 ∨ m = 11 then 30
  else 31

/-- The validity check performed by the `datetime(year, month, day)`
constructor (which raises `ValueError` exactly when this is false). -/
def validDate (d : PyDate) : Bool :=
  decide (1 ≤ d.year) && decide (d.year ≤ 9999) &&
  decide (1 ≤ d.month) && decide (d.month ≤ 12) &&
  decide (1 ≤ d.day) && decide (d.day ≤ daysInMonth d.year d.month)

/-- Model of `datetime(y, m, d).date()` as a fallible value: `none` models the
`ValueError` the constructor raises on an invalid date. -/
def mkDate (y m d : Nat) : Option PyDate :=
  if validDate ⟨y, m, d⟩ then some ⟨y, m, d⟩ else none

/-- Rendering used by `strftime`: zero-padded decimal rendering of width `w` (`%Y` with `w = 4`,
`%m`/`%d` with `w = 2`). -/
def pad (w n : Nat) : List Char :=
  let s := Nat.toDigits 10 n
  List.replicate (w - s.length) '0' ++ s

/-! ## The source's date-text regex patterns

Tokenisations of the Python regex literals appearing in
`parse_article_date` of both files.  In the two ISO patterns the source
captures the whole `\d{4}-\d{2}-\d{2}` prefix as a single group and re-parses
it with `strptime('%Y-%m-%d')`; since the group markers do not affect matching
we capture the three numeric fields directly, and `strptime` on a string of
that exact shape succeeds precisely when `datetime(y, m, d)` does, i.e. it is
`mkDate`. -/

/-- Shorthand: `\d{lo,hi}` capture group. -/
def dCap (lo hi : Nat) : RTok := .cls .digit lo (some hi) true

/-- Shorthand: `\d{lo,hi}`, not captured. -/
def dRaw (lo hi : Nat) : RTok := .cls .digit lo (some hi) false

/-- Shorthand: `\s+`, not captured. -/
def sPlus : RTok := .cls .space 1 none false

/-- Pattern `r'(\d{4}-\d{2}-\d{2})T\d{2}:\d{2}:\d{2}'` (`main.py` line 132). -/
def patIsoT : List RTok :=
  [dCap 4 4, .lit '-', dCap 2 2, .lit '-', dCap 2 2, .lit 'T',
   dRaw 2 2, .lit ':', dRaw 2 2, .lit ':', dRaw 2 2]

/-- Pattern `r'(\d{4}-\d{2}-\d{2})\s+\d{2}:\d{2}:\d{2}'` (`main.py` line 133). -/
def patIsoSp : List RTok :=
  [dCap 4 4, .lit '-', dCap 2 2, .lit '-', dCap 2 2, sPlus,
   dRaw 2 2, .lit ':', dRaw 2 2, .lit ':', dRaw 2 2]

/-- Pattern `r'(\d{1,2})/(\d{1,2})/(\d{4})'` — `MM/DD/YYYY`. -/
def patMdy : List RTok :=
  [dCap 1 2, .lit '/', dCap 1 2, .lit '/', dCap 4 4]

/-- Pattern `r'(\d{4})-(\d{1,2})-(\d{1,2})'` — `YYYY-MM-DD`. -/
def patYmd : List RTok :=
  [dCap 4 4, .lit '-', dCap 1 2, .lit '-', dCap 1 2]

/-- Pattern `r'(\d{1,2})-(\d{1,2})-(\d{4})'` — `DD-MM-YYYY`. -/
def patDmy : List RTok :=
  [dCap 1 2, .lit '-', dCap 1 2, .lit '-', dCap 4 4]

/-- Pattern `r'(\w+)\s+(\d{1,2}),\s+(\d{4})'` — `Month DD, YYYY`. -/
def patMdyName : List RTok :=
  [.cls .word 1 none true, sPlus, dCap 1 2, .lit ',', sPlus, dCap 4 4]

/-- Pattern `r'(\d{1,2})\s+(\w+)\s+(\d{4})'` — `DD Month YYYY`. -/
def patDmyName : List RTok :=
  [dCap 1 2, sPlus, .cls .word 1 none true, sPlus, dCap 4 4]

/-- The field-order interpretation attached to each numeric/named pattern. -/
inductive DFmt where
  | mdy
  | ymd
  | dmy
  | mdyName
  | dmyName
  deriving DecidableEq, Repr

/-- The `date_patterns` list tried by `parse_article_date`, identical in both
files (`main.py` lines 146-152, `news.py` lines 130-136). -/
def date_patterns : List (List RTok × DFmt) :=
  [(patMdy, .mdy), (patYmd, .ymd), (patDmy, .dmy),
   (patMdyName, .mdyName), (patDmyName, .dmyName)]

/-- Interpret the three captured groups of a matched pattern according to its
format, using `dict` for month names; `none` models both a `ValueError` from
the `datetime` constructor and a month name missing from the table (in both
cases the source falls through to the next pattern). -/
def applyFmt (fmt : DFmt) (dict : String → Option Nat) :
    List (List Char) → Option PyDate
  | [g1, g2, g3] =>
    match fmt with
    | .mdy => mkDate (digitsToNat g3) (digitsToNat g1) (digitsToNat g2)
    | .ymd => mkDate (digitsToNat g1) (digitsToNat g2) (digitsToNat g3)
    | .dmy => mkDate (digitsToNat g3) (digitsToNat g2) (digitsToNat g1)
    | .mdyName =>
      match dict (String.mk g1) with
      | some m => mkDate (digitsToNat g3) m (digitsToNat g2)
      | none => none
    | .dmyName =>
      match dict (String.mk g2) with
      | some m => mkDate (digitsToNat g3) m (digitsToNat g1)
      | none => none
  | _ => none

/-- The `for pattern in date_patterns` loop: first pattern that matches AND
whose groups survive validation wins; a match whose groups fail validation
falls through to the next pattern (`continue` in the source's
`except (ValueError, TypeError)` handler and in the `if month:` guard). -/
def firstSomePats (dict : String → Option Nat) (t : List Char) :
    List (List RTok × DFmt) → Option PyDate
  | [] => none
  | (pat, fmt) :: rest =>
    match searchToks pat t with
    | none => firstSomePats dict t rest
    | some gs =>
      match applyFmt fmt dict gs with
      | some dte => some dte
      | none => firstSomePats dict t rest

/-- One ISO pattern attempt: on a match, `strptime` the captured date; a
`ValueError` (`none`) falls through (`continue`). -/
def tryIsoPat (pat : List RTok) (t : List Char) : Option PyDate :=
  match searchToks pat t with
  | some [g1, g2, g3] => mkDate (digitsToNat g1) (digitsToNat g2) (digitsToNat g3)
  | _ => none

/-- List `today_keywords` (`main.py` line 125, `news.py` line 124). -/
def today_keywords : List String :=
  ["today", "just now", "minutes ago", "hours ago", "hour ago", "minute ago"]

/-- Lower-cased, stripped form of the input text (`date_text.strip().lower()`). -/
def cleanDateText (s : String) : List Char :=
  (pyStrip s.data).map Char.toLower

namespace MainPy

/-- Table `month_dict` of `main.py` (lines 154-160): full month names and 3-letter
abbreviations. -/
def month_dict (s : String) : Option Nat :=
  if s = "january" then some 1 else if s = "february" then some 2
  else if s = "march" then some 3 else if s = "april" then some 4
  else if s = "may" then some 5 else if s = "june" then some 6
  else if s = "july" then some 7 else if s = "august" then some 8
  else if s = "september" then some 9 else if s = "october" then some 10
  else if s = "november" then some 11 else if s = "december" then some 12
  else if s = "jan" then some 1 else if s = "feb" then some 2
  else if s = "mar" then some 3 else if s = "apr" then some 4
  else if s = "jun" then some 6 else if s = "jul" then some 7
  else if s = "aug" then some 8 else if s = "sep" then some 9
  else if s = "oct" then some 10 else if s = "nov" then some 11
  else if s = "dec" then some 12 else none

/-- Method `CNNWorldScraper.parse_article_date` of `main.py` (lines 116-190):
empty text resolves to nothing; otherwise the text is stripped and
lower-cased; a relative keyword anywhere in it resolves to `today`; else the
two ISO patterns are tried, then the numeric/named `date_patterns` in order.
(Lower-casing happens before the ISO patterns are tried, so the literal `T`
of the first ISO pattern can only fail; the source behaves the same way.) -/
def parse_article_date (dateText : String) (today : PyDate) : Option PyDate :=
  if dateText = "" then none
  else if today_keywords.any (fun k => containsSub (cleanDateText dateText) k.data) then
    some today
  else
    match tryIsoPat patIsoT (cleanDateText dateText) with
    | some dte => some dte
    | none =>
      match tryIsoPat patIsoSp (cleanDateText dateText) with
      | some dte => some dte
      | none => firstSomePats month_dict (cleanDateText dateText) date_patterns

end MainPy

namespace NewsPy

/-- Table `month_dict` of `news.py` (lines 156-160 and 166-170): full month names
only, no abbreviations. -/
def month_dict (s : String) : Option Nat :=
  if s = "january" then some 1 else if s = "february" then some 2
  else if s = "march" then some 3 else if s = "april" then some 4
  else if s = "may" then some 5 else if s = "june" then some 6
  else if s = "july" then some 7 else if s = "august" then some 8
  else if s = "september" then some 9 else if s = "october" then some 10
  else if s = "november" then some 11 else if s = "december" then some 12
  else none

/-- Method `CNNWorldScraper.parse_article_date` of `news.py` (lines 115-177): like
`main.py`'s but with no ISO-timestamp step and with the full-names-only month
table. -/
def parse_article_date (dateText : String) (today : PyDate) : Option PyDate :=
  if dateText = "" then none
  else if today_keywords.any (fun k => containsSub (cleanDateText dateText) k.data) then
    some today
  else firstSomePats month_dict (cleanDateText dateText) date_patterns

end NewsPy


/-! ## URL parsing (`urllib.parse.urlparse`, the three components used) -/

/-- The scheme, network location and path of a parsed URL (the only
components the source reads). -/
structure ParsedUrl where
  scheme : String
  netloc : String
  path : String
  deriving DecidableEq, Repr

/-- Characters allowed in a URL scheme after the initial letter. -/
def isSchemeChar (c : Char) : Bool :=
  c.isAlphanum || c = '+' || c = '-' || c = '.'

/-- Everything before the first occurrence of `c`. -/
def takeBeforeChar (c : Char) (s : List Char) : List Char :=
  s.takeWhile (fun x => x ≠ c)

/-- Model of `urllib.parse.urlparse`, restricted to scheme/netloc/path: the fragment
is split off at the first `#`; a leading `letter(letter|digit|+|-|.)*:` is the
(lower-cased) scheme; after `//` the netloc extends to the next `/`, `?` or
`#`; the path is what remains before the query `?`. -/
def urlsplit3 (url : String) : ParsedUrl :=
  let u0 := takeBeforeChar '#' url.data
  let before := takeBeforeChar ':' u0
  let schemeRest : List Char × List Char :=
    if before.length < u0.length ∧ before ≠ [] ∧
        (before.headD ' ').isAlpha ∧ before.all isSchemeChar then
      (before.map Char.toLower, u0.drop (before.length + 1))
    else ([], u0)
  let netlocRest : List Char × List Char :=
    match schemeRest.2 with
    | '/' :: '/' :: r =>
      let n := r.takeWhile (fun x => x ≠ '/' && x ≠ '?' && x ≠ '#')
      (n, r.drop n.length)
    | rest => ([], rest)
  ⟨String.mk schemeRest.1, String.mk netlocRest.1,
   String.mk (takeBeforeChar '?' netlocRest.2)⟩

/-- List `excluded_paths` (`main.py` lines 205-209, `news.py` lines 192-196). -/
def excluded_paths : List String :=
  ["/videos/", "/video/", "/gallery/", "/galleries/",
   "/live-news/", "/profiles/", "/about/", "/contact/",
   "/search/", "/newsletters/", "/audio/", "/podcasts/"]

namespace MainPy

/-- Method `CNNWorldScraper.is_today_article` of `main.py` (lines 96-114): when
`today_only` is off, every URL passes; otherwise the URL must contain one of
five renderings of today's date. -/
def is_today_article (todayOnly : Bool) (today : PyDate) (url : String) : Bool :=
  if !todayOnly then true
  else
    let y := pad 4 today.year
    let m := pad 2 today.month
    let d := pad 2 today.day
    let pats : List (List Char) :=
      ['/' :: (y ++ '/' :: m ++ '/' :: d ++ ['/']),
       '/' :: (y ++ '/' :: m ++ '/' :: d),
       '-' :: (y ++ '-' :: m ++ '-' :: d ++ ['-']),
       '-' :: (y ++ '-' :: m ++ '-' :: d),
       y ++ m ++ d]
    pats.any (fun p => containsSub url.data p)

/-- Method `CNNWorldScraper.is_valid_article_url` of `main.py` (lines 192-228). -/
def is_valid_article_url (todayOnly : Bool) (today : PyDate) (url : String) : Bool :=
  let p := urlsplit3 url
  if p.scheme = "" || p.netloc = "" then false
  else if !containsSub p.netloc.data "cnn.com".data then false
  else if excluded_paths.any (fun e => containsSub p.path.data e.data) then false
  else if containsSub p.path.data "2024".data || containsSub p.path.data "2025".data then
    if todayOnly then is_today_article todayOnly today url else true
  else if containsSub p.path.data "/world/".data then
    if todayOnly then is_today_article todayOnly today url else true
  else false

end MainPy

namespace NewsPy

/-- Method `CNNWorldScraper.is_today_article` of `news.py` (lines 96-113): when
`today_only` is off, every URL passes; otherwise the URL must contain one of
three renderings of today's date (no surrounding separators required). -/
def is_today_article (todayOnly : Bool) (today : PyDate) (url : String) : Bool :=
  if !todayOnly then true
  else
    let y := pad 4 today.year
    let m := pad 2 today.month
    let d := pad 2 today.day
    let pats : List (List Char) :=
      [y ++ '/' :: m ++ '/' :: d,
       y ++ '-' :: m ++ '-' :: d,
       y ++ m ++ d]
    pats.any (fun p => containsSub url.data p)

/-- Method `CNNWorldScraper.is_valid_article_url` of `news.py` (lines 179-215),
textually identical to `main.py`'s but calling `news.py`'s
`is_today_article`. -/
def is_valid_article_url (todayOnly : Bool) (today : PyDate) (url : String) : Bool :=
  let p := urlsplit3 url
  if p.scheme = "" || p.netloc = "" then false
  else if !containsSub p.netloc.data "cnn.com".data then false
  else if excluded_paths.any (fun e => containsSub p.path.data e.data) then false
  else if containsSub p.path.data "2024".data || containsSub p.path.data "2025".data then
    if todayOnly then is_today_article todayOnly today url else true
  else if containsSub p.path.data "/world/".data then
    if todayOnly then is_today_article todayOnly today url else true
  else false

end NewsPy

/-! ## Article records and the content-based classifier -/

/-- The dictionary built by `extract_article_content` (string fields and the
tag list; `main.py` lines 300-309, `news.py` lines 272-280). -/
structure ArticleData where
  url : String
  title : String
  content : String
  paragraphs : List String
  author : String
  publish_date : String
  tags : List String
  scraped_at : String
  deriving DecidableEq, Repr

namespace MainPy

/-- Method `CNNWorldScraper.is_today_by_content` of `main.py` (lines 230-247):
with `today_only` off, accept unconditionally; otherwise accept if the URL
embeds today's date; otherwise, if the raw publish date is non-empty, accept
exactly when it parses to today; otherwise reject. -/
def is_today_by_content (todayOnly : Bool) (today : PyDate) (a : ArticleData) : Bool :=
  if !todayOnly then true
  else if is_today_article todayOnly today a.url then true
  else if a.publish_date ≠ "" then
    match parse_article_date a.publish_date today with
    | some d => decide (d = today)
    | none => false
  else false

end MainPy

namespace NewsPy

/-- Method `CNNWorldScraper.is_today_by_content` of `news.py` (lines 217-229):
with `today_only` off, accept unconditionally; otherwise, if the raw publish
date is non-empty and parses, accept exactly when it parses to today (the URL
is NOT consulted in that case); only when the publish date is empty or
unparsable is the URL's embedded date checked. -/
def is_today_by_content (todayOnly : Bool) (today : PyDate) (a : ArticleData) : Bool :=
  if !todayOnly then true
  else if a.publish_date ≠ "" then
    match parse_article_date a.publish_date today with
    | some d => decide (d = today)
    | none => is_today_article todayOnly today a.url
  else is_today_article todayOnly today a.url

end NewsPy

/-! ## Body-paragraph extraction -/

/-- The per-paragraph filter `if text and len(text) > 20` applied to the
stripped text of each candidate paragraph element (`main.py` line 278,
`news.py` line 311). -/
def keepPara (t : String) : Bool :=
  decide (t ≠ "") && decide (20 < t.length)

namespace MainPy

/-- The selector loop of `CNNWorldScraper.fetch_cnn_paragraphs` of `main.py`
(lines 268-283).  A document is abstracted as the list, per selector strategy
in order, of the stripped texts (`get_text(strip=True)`) of the elements that
strategy matches.  Surviving texts accumulate; after each strategy the loop
breaks as soon as the accumulator is non-empty. -/
def bodyLoop (acc : List String) : List (List String) → List String
  | [] => acc
  | s :: rest =>
    if (acc ++ s.filter keepPara).isEmpty then bodyLoop (acc ++ s.filter keepPara) rest
    else acc ++ s.filter keepPara

/-- Result of `fetch_cnn_paragraphs`: the paragraph list for a fetched page, starting from
an empty accumulator. -/
def fetch_cnn_paragraphs_body (strategies : List (List String)) : List String :=
  bodyLoop [] strategies

end MainPy

namespace NewsPy

/-- The body-selector loop of `CNNWorldScraper.extract_article_content` of
`news.py` (lines 306-312): every selector strategy is scanned, survivors from
ALL strategies accumulate — there is no break. -/
def extract_content_body (strategies : List (List String)) : List String :=
  strategies.foldl (fun acc s => acc ++ s.filter keepPara) []

end NewsPy

/-! ## Scalar-field (title/author) selection -/

/-- The title/author selector loop of `extract_article_content`, identical in
both files (`main.py` lines 320-324 and 360-364, `news.py` lines 291-295 and
324-328): iterate the selectors in order and, at the FIRST selector whose
`select_one` finds an element, set the field to that element's stripped text
and break — whether or not that text is empty.  `results` holds, per
selector, `none` if no element matched and `some t` for a first matched
element with stripped text `t`; the field starts out as `''`. -/
def firstMatchText : List (Option String) → String
  | [] => ""
  | none :: rest => firstMatchText rest
  | some t :: _ => t

/-- Modelled from the spec's words, for comparison with `firstMatchText`
(refinement check): "the first strategy yielding a non-empty result for that
field wins", i.e. a matched element whose text is empty does not end the
search. -/
def firstNonEmptyText : List (Option String) → String
  | [] => ""
  | none :: rest => firstNonEmptyText rest
  | some t :: rest => if t = "" then firstNonEmptyText rest else t

/-! ## The fetcher -/

/-- Method `CNNWorldScraper.get_page` (lines 51-64, identical in both files),
abstracted over the network: `fetch i` is the outcome of the `i`-th
`session.get` call (`none` = `RequestException`).  The result is the returned
page (`none` = the final `return None`), the number of calls made, and the
list of back-off sleeps performed, in order.  The `fuel` argument counts the
loop iterations remaining (`range(retries)` runs at most `retries` times);
the `attempt < retries - 1` test is the source's guard deciding between
sleeping and giving up. -/
def getPageGo (fetch : Nat → Option String) (retries : Nat) :
    Nat → Nat → Nat → List Nat → Option String × Nat × List Nat
  | 0, _, calls, sleeps => (none, calls, sleeps)
  | fuel + 1, attempt, calls, sleeps =>
    match fetch attempt with
    | some p => (some p, calls + 1, sleeps)
    | none =>
      if attempt < retries - 1 then
        getPageGo fetch retries fuel (attempt + 1) (calls + 1) (sleeps ++ [2 ^ attempt])
      else (none, calls + 1, sleeps)

/-- Call `get_page(url, retries)`: run the attempt loop from attempt 0. -/
def get_page (fetch : Nat → Option String) (retries : Nat) :
    Option String × Nat × List Nat :=
  getPageGo fetch retries retries 0 0 []

/-! ## The pipeline (`scrape_world_news`) -/

namespace MainPy

/-- The per-URL iteration of `CNNWorldScraper.scrape_world_news` of `main.py`
(lines 437-458): extraction failure (`None`) or an empty title skips the URL;
with `today_only` on, `is_today_by_content` decides inclusion.  (The source
appends to one of two lists and returns the one selected by `today_only`;
since the flag is fixed for the run this equals a single conditional
append.) -/
def scrapeLoop (extract : String → Option ArticleData) (todayOnly : Bool)
    (today : PyDate) : List String → List ArticleData
  | [] => []
  | u :: rest =>
    match extract u with
    | some a =>
      if a.title ≠ "" then
        if todayOnly then
          if is_today_by_content todayOnly today a then
            a :: scrapeLoop extract todayOnly today rest
          else scrapeLoop extract todayOnly today rest
        else a :: scrapeLoop extract todayOnly today rest
      else scrapeLoop extract todayOnly today rest
    | none => scrapeLoop extract todayOnly today rest

/-- Method `CNNWorldScraper.scrape_world_news` of `main.py` (lines 405-468):
`listingPage` is the listing fetch's outcome (`None` aborts with `[]`),
`extractUrls` abstracts `extract_article_urls` on the parsed page,
`extract` abstracts `extract_article_content` per URL.  With `today_only`
on, URLs are pre-filtered by `is_today_article`; a truthy `max_articles`
truncates the list. -/
def scrape_world_news (listingPage : Option String)
    (extractUrls : String → List String)
    (extract : String → Option ArticleData) (todayOnly : Bool)
    (today : PyDate) (maxArticles : Nat) : List ArticleData :=
  match listingPage with
  | none => []
  | some page =>
    let urls := extractUrls page
    let urls1 := if todayOnly then urls.filter (is_today_article todayOnly today) else urls
    let urls2 := if maxArticles ≠ 0 then urls1.take maxArticles else urls1
    scrapeLoop extract todayOnly today urls2

end MainPy

namespace NewsPy

/-- The per-URL iteration of `CNNWorldScraper.scrape_world_news` of `news.py`
(lines 393-412), same shape as `main.py`'s but using `news.py`'s
classifier. -/
def scrapeLoop (extract : String → Option ArticleData) (todayOnly : Bool)
    (today : PyDate) : List String → List ArticleData
  | [] => []
  | u :: rest =>
    match extract u with
    | some a =>
      if a.title ≠ "" then
        if todayOnly then
          if is_today_by_content todayOnly today a then
            a :: scrapeLoop extract todayOnly today rest
          else scrapeLoop extract todayOnly today rest
        else a :: scrapeLoop extract todayOnly today rest
      else scrapeLoop extract todayOnly today rest
    | none => scrapeLoop extract todayOnly today rest

/-- Method `CNNWorldScraper.scrape_world_news` of `news.py` (lines 369-422): like
`main.py`'s but with no today-URL pre-filtering step. -/
def scrape_world_news (listingPage : Option String)
    (extractUrls : String → List String)
    (extract : String → Option ArticleData) (todayOnly : Bool)
    (today : PyDate) (maxArticles : Nat) : List ArticleData :=
  match listingPage with
  | none => []
  | some page =>
    let urls := extractUrls page
    let urls2 := if maxArticles ≠ 0 then urls.take maxArticles else urls
    scrapeLoop extract todayOnly today urls2

end NewsPy


/-! ## Concrete data used by counterexamples and witnesses -/

/-- An extracted record whose URL embeds the reference date `2025-07-28`
while its free-text publish date resolves to the previous day. -/
def c1Record : ArticleData :=
  { url := "https://edition.cnn.com/2025/07/28/world/example-article"
    title := "Example headline"
    content := ""
    paragraphs := []
    author := ""
    publish_date := "July 27, 2025"
    tags := []
    scraped_at := "" }

/-- A per-URL extraction oracle that fails on the URL `"bad"` and succeeds,
with a titled record, on every other URL. -/
def c9Extract : String → Option ArticleData := fun u =>
  if u = "bad" then none
  else some { url := u, title := "T", content := "", paragraphs := [], author := "",
              publish_date := "", tags := [], scraped_at := "" }

/-! ## Helper lemmas -/

theorem mkDate_valid {y m d : Nat} {dt : PyDate} (h : mkDate y m d = some dt) :
    validDate dt = true := by
  unfold mkDate at h
  split at h
  · cases h; assumption
  · cases h

theorem applyFmt_valid {fmt : DFmt} {dict : String → Option Nat}
    {gs : List (List Char)} {d : PyDate} (h : applyFmt fmt dict gs = some d) :
    validDate d = true := by
  unfold applyFmt at h
  split at h
  · split at h
    · exact mkDate_valid h
    · exact mkDate_valid h
    · exact mkDate_valid h
    · split at h
      · exact mkDate_valid h
      · cases h
    · split at h
      · exact mkDate_valid h
      · cases h
  · cases h

theorem firstSomePats_valid {dict : String → Option Nat} {t : List Char}
    {d : PyDate} :
    ∀ {pats : List (List RTok × DFmt)}, firstSomePats dict t pats = some d →
      validDate d = true
  | [], h => by cases h
  | (pat, fmt) :: rest, h => by
    unfold firstSomePats at h
    split at h
    · exact firstSomePats_valid h
    · split at h
      · rename_i hfmt
        cases h
        exact applyFmt_valid hfmt
      · exact firstSomePats_valid h

theorem tryIsoPat_valid {pat : List RTok} {t : List Char} {d : PyDate}
    (h : tryIsoPat pat t = some d) : validDate d = true := by
  unfold tryIsoPat at h
  split at h
  · exact mkDate_valid h
  · cases h

/-! ## Claim theorems -/

/-- C10: with `today_only = False` the URL-date check `is_today_article`
returns `True` for every input string — the empty string included — and the
content-based check `is_today_by_content` accepts every record
unconditionally, in both `main.py` and `news.py`: the date evidence is
bypassed entirely. -/
theorem C10_today_only_off_bypasses_date_checks (today : PyDate) (url : String)
    (a : ArticleData) :
    MainPy.is_today_article false today url = true ∧
    NewsPy.is_today_article false today url = true ∧
    MainPy.is_today_by_content false today a = true ∧
    NewsPy.is_today_by_content false today a = true ∧
    MainPy.is_today_article false today "" = true ∧
    NewsPy.is_today_article false today "" = true :=
  ⟨rfl, rfl, rfl, rfl, rfl, rfl⟩

/-- C4: determinism of the Date Resolver on the spec's reference inputs, for
both files' `parse_article_date`: the ISO timestamp, both named-month forms
and the relative keyword resolve as specified, unparsable text is unresolved,
keyword matching is case-insensitive (the text is lower-cased first), and any
text containing a relative keyword resolves to the reference date before any
numeric pattern is consulted. -/
theorem C4_date_resolver_determinism (ref : PyDate) :
    (MainPy.parse_article_date "2025-07-28T12:34:56" ref = some ⟨2025, 7, 28⟩ ∧
     MainPy.parse_article_date "July 28, 2025" ref = some ⟨2025, 7, 28⟩ ∧
     MainPy.parse_article_date "28 July 2025" ref = some ⟨2025, 7, 28⟩ ∧
     MainPy.parse_article_date "hours ago" ref = some ref ∧
     MainPy.parse_article_date "not a date" ref = none) ∧
    (NewsPy.parse_article_date "2025-07-28T12:34:56" ref = some ⟨2025, 7, 28⟩ ∧
     NewsPy.parse_article_date "July 28, 2025" ref = some ⟨2025, 7, 28⟩ ∧
     NewsPy.parse_article_date "28 July 2025" ref = some ⟨2025, 7, 28⟩ ∧
     NewsPy.parse_article_date "hours ago" ref = some ref ∧
     NewsPy.parse_article_date "not a date" ref = none) ∧
    (MainPy.parse_article_date "HOURS AGO" ref = some ref ∧
     NewsPy.parse_article_date "HOURS AGO" ref = some ref) ∧
    (∀ text : String, text ≠ "" →
      (today_keywords.any fun k => containsSub (cleanDateText text) k.data) = true →
      MainPy.parse_article_date text ref = some ref ∧
      NewsPy.parse_article_date text ref = some ref) := by
  refine ⟨⟨rfl, rfl, rfl, rfl, rfl⟩, ⟨rfl, rfl, rfl, rfl, rfl⟩, ⟨rfl, rfl⟩, ?_⟩
  intro text hne hkey
  constructor
  · unfold MainPy.parse_article_date
    rw [if_neg hne, if_pos hkey]
  · unfold NewsPy.parse_article_date
    rw [if_neg hne, if_pos hkey]

/-- C10 witness: the bypass equations instantiated at a concrete date, the
empty URL and a concrete record. -/
theorem C10_witness :
    MainPy.is_today_by_content false ⟨2025, 7, 28⟩
      { url := "", title := "", content := "", paragraphs := [], author := "",
        publish_date := "yesterday", tags := [], scraped_at := "" } = true ∧
    MainPy.is_today_article false ⟨2025, 7, 28⟩ "" = true :=
  ⟨(C10_today_only_off_bypasses_date_checks ⟨2025, 7, 28⟩ ""
      { url := "", title := "", content := "", paragraphs := [], author := "",
        publish_date := "yesterday", tags := [], scraped_at := "" }).2.2.1,
   (C10_today_only_off_bypasses_date_checks ⟨2025, 7, 28⟩ ""
      { url := "", title := "", content := "", paragraphs := [], author := "",
        publish_date := "", tags := [], scraped_at := "" }).1⟩

/-- C4 witness: the keyword branch of the determinism theorem instantiated at
the mixed-case text `"Hours Ago"` and the reference date 2025-07-28. -/
theorem C4_witness :
    MainPy.parse_article_date "Hours Ago" ⟨2025, 7, 28⟩ = some ⟨2025, 7, 28⟩ ∧
    NewsPy.parse_article_date "Hours Ago" ⟨2025, 7, 28⟩ = some ⟨2025, 7, 28⟩ :=
  (C4_date_resolver_determinism ⟨2025, 7, 28⟩).2.2.2 "Hours Ago" (by decide) (by decide)

/-- C5 counterexample: the claim says every 3-letter month abbreviation is
covered, e.g. that `"28 Jul 2025"` resolves to 2025-07-28; but `news.py`'s
month table holds only full month names, so its resolver leaves
`"28 Jul 2025"` unresolved. -/
theorem C5_counterexample :
    NewsPy.parse_article_date "28 Jul 2025" ⟨2025, 7, 28⟩ = none ∧
    NewsPy.month_dict "jul" = none := by
  exact ⟨by decide, by decide⟩

/-- C5 (amended): `main.py`'s month table covers full month names and their
3-letter abbreviations, case-insensitively, in both named-month forms;
`news.py`'s table covers only the full names, so abbreviated month names are
unresolved there. -/
theorem C5_month_name_coverage (ref : PyDate) :
    MainPy.parse_article_date "28 July 2025" ref = some ⟨2025, 7, 28⟩ ∧
    MainPy.parse_article_date "28 Jul 2025" ref = some ⟨2025, 7, 28⟩ ∧
    MainPy.parse_article_date "July 28, 2025" ref = some ⟨2025, 7, 28⟩ ∧
    MainPy.parse_article_date "Jul 28, 2025" ref = some ⟨2025, 7, 28⟩ ∧
    MainPy.parse_article_date "28 JULY 2025" ref = some ⟨2025, 7, 28⟩ ∧
    MainPy.parse_article_date "28 JUL 2025" ref = some ⟨2025, 7, 28⟩ ∧
    MainPy.month_dict "july" = some 7 ∧
    MainPy.month_dict "jul" = some 7 ∧
    NewsPy.parse_article_date "28 July 2025" ref = some ⟨2025, 7, 28⟩ ∧
    NewsPy.parse_article_date "July 28, 2025" ref = some ⟨2025, 7, 28⟩ ∧
    NewsPy.parse_article_date "28 Jul 2025" ref = none ∧
    NewsPy.month_dict "july" = some 7 ∧
    NewsPy.month_dict "jul" = none :=
  ⟨rfl, rfl, rfl, rfl, rfl, rfl, rfl, rfl, rfl, rfl, rfl, rfl, rfl⟩

/-- C3 counterexample: the claim says a strategy whose element matches but
whose text is empty does not end the search; in the code it does.  With a
first selector matching an element of empty text and a second matching a
non-empty headline, the extracted field is `""`, not the first non-empty
text. -/
theorem C3_counterexample :
    firstMatchText [some "", some "Real Headline"] = "" ∧
    firstNonEmptyText [some "", some "Real Headline"] = "Real Headline" ∧
    "" ≠ "Real Headline" :=
  ⟨rfl, rfl, by decide⟩

/-- C3 (amended): for the title and author fields the extracted value is the
text of the FIRST strategy whose selector matches an element — even when that
text is empty, which ends the search with an empty field; whenever the first
matching element's text is non-empty this coincides with the spec's
first-non-empty rule. -/
theorem C3_scalar_field_first_match (pre : List (Option String)) (t : String)
    (rest : List (Option String)) (h : ∀ o ∈ pre, o = none) :
    firstMatchText (pre ++ some t :: rest) = t ∧
    (t ≠ "" →
      firstMatchText (pre ++ some t :: rest) = firstNonEmptyText (pre ++ some t :: rest)) := by
  induction pre with
  | nil =>
    refine ⟨rfl, fun ht => ?_⟩
    simp [firstMatchText, firstNonEmptyText, ht]
  | cons o os ih =>
    have ho : o = none := h o (by simp)
    subst ho
    have ih2 := ih (fun o hm => h o (by simp [hm]))
    simpa [firstMatchText, firstNonEmptyText] using ih2

/-- C3 witness: a first selector with no matching element, a second with a
non-empty headline. -/
theorem C3_witness :
    firstMatchText [none, some "Breaking news headline"] = "Breaking news headline" :=
  (C3_scalar_field_first_match [none] "Breaking news headline" [] (by simp)).1

/-- C2 counterexample: in `news.py`'s body extraction an earlier strategy
yields a surviving paragraph, yet a paragraph harvested by a later strategy
still appears in the body — the claim's "paragraphs from later strategies
never appear once an earlier strategy succeeded" fails there. -/
theorem C2_counterexample :
    ["first strategy paragraph text"].filter keepPara =
      ["first strategy paragraph text"] ∧
    NewsPy.extract_content_body
        [["first strategy paragraph text"], ["second strategy paragraph text"]] =
      ["first strategy paragraph text", "second strategy paragraph text"] :=
  ⟨by decide, by decide⟩

theorem bodyLoop_mem {t : String} :
    ∀ {acc : List String} {strategies : List (List String)},
      t ∈ MainPy.bodyLoop acc strategies → t ∈ acc ∨ keepPara t = true
  | acc, [], h => Or.inl h
  | acc, s :: rest, h => by
    unfold MainPy.bodyLoop at h
    split at h
    · rcases bodyLoop_mem h with hmem | hk
      · rcases List.mem_append.mp hmem with ha | hf
        · exact Or.inl ha
        · exact Or.inr (List.mem_filter.mp hf).2
      · exact Or.inr hk
    · rcases List.mem_append.mp h with ha | hf
      · exact Or.inl ha
      · exact Or.inr (List.mem_filter.mp hf).2

theorem newsBody_mem {t : String} :
    ∀ (strategies : List (List String)) {acc : List String},
      t ∈ strategies.foldl (fun acc s => acc ++ s.filter keepPara) acc →
      t ∈ acc ∨ keepPara t = true
  | [], _, h => Or.inl h
  | s :: rest, acc, h => by
    rcases newsBody_mem rest h with hmem | hk
    · rcases List.mem_append.mp hmem with ha | hf
      · exact Or.inl ha
      · exact Or.inr (List.mem_filter.mp hf).2
    · exact Or.inr hk

/-- C2 (amended): in both files a candidate paragraph survives only if its
text is non-empty and strictly longer than 20 characters; `main.py`'s
`fetch_cnn_paragraphs` stops at the first selector strategy with a surviving
paragraph (the body is then exactly that strategy's survivors), but
`news.py`'s `extract_article_content` keeps scanning, so paragraphs from
later strategies also appear after an earlier strategy succeeded. -/
theorem C2_body_extraction (strategies : List (List String)) (s : List String)
    (rest : List (List String)) (t : String) :
    (t ∈ MainPy.fetch_cnn_paragraphs_body strategies → t ≠ "" ∧ 20 < t.length) ∧
    (t ∈ NewsPy.extract_content_body strategies → t ≠ "" ∧ 20 < t.length) ∧
    (s.filter keepPara ≠ [] →
      MainPy.fetch_cnn_paragraphs_body (s :: rest) = s.filter keepPara) := by
  refine ⟨fun h => ?_, fun h => ?_, fun h => ?_⟩
  · rcases bodyLoop_mem h with hm | hk
    · cases hm
    · simpa [keepPara] using hk
  · rcases newsBody_mem strategies h with hm | hk
    · cases hm
    · simpa [keepPara] using hk
  · unfold MainPy.fetch_cnn_paragraphs_body MainPy.bodyLoop
    simp [List.isEmpty_iff, h]

/-- C2 witness: with a surviving first-strategy paragraph, `main.py`'s body
is exactly the first strategy's survivors, and that paragraph passes the
21-character threshold. -/
theorem C2_witness :
    MainPy.fetch_cnn_paragraphs_body
        [["first strategy paragraph text"], ["second strategy paragraph text"]] =
      ["first strategy paragraph text"].filter keepPara ∧
    ("first strategy paragraph text" ≠ "" ∧
      20 < ("first strategy paragraph text" : String).length) :=
  ⟨(C2_body_extraction [] ["first strategy paragraph text"]
      [["second strategy paragraph text"]] "").2.2 (by decide),
   (C2_body_extraction [["first strategy paragraph text"]] [] []
      "first strategy paragraph text").1 (by decide)⟩

/-- C5 witness: the abbreviation equations instantiated at a concrete
reference date. -/
theorem C5_witness :
    MainPy.parse_article_date "28 Jul 2025" ⟨2024, 1, 1⟩ = some ⟨2025, 7, 28⟩ ∧
    NewsPy.parse_article_date "28 Jul 2025" ⟨2024, 1, 1⟩ = none :=
  ⟨(C5_month_name_coverage ⟨2024, 1, 1⟩).2.1,
   (C5_month_name_coverage ⟨2024, 1, 1⟩).2.2.2.2.2.2.2.2.2.2.1⟩

/-- C1 counterexample: a record whose URL embeds the reference date
2025-07-28 (under both files' URL patterns) but whose free-text publish date
resolves to 2025-07-27 is REJECTED by `news.py`'s `is_today_by_content` —
the free-text date is checked first there and a conflicting resolved date is
decisive, so the claimed URL-first precedence does not hold for that file. -/
theorem C1_counterexample :
    MainPy.is_today_article true ⟨2025, 7, 28⟩ c1Record.url = true ∧
    NewsPy.is_today_article true ⟨2025, 7, 28⟩ c1Record.url = true ∧
    NewsPy.parse_article_date c1Record.publish_date ⟨2025, 7, 28⟩ =
      some ⟨2025, 7, 27⟩ ∧
    NewsPy.is_today_by_content true ⟨2025, 7, 28⟩ c1Record = false :=
  ⟨by decide, by decide, by decide, by decide⟩

/-- C1 (amended): `main.py`'s classifier checks the URL first — a record
whose URL embeds the reference date is accepted even if its free-text date
resolves differently, and only otherwise does the resolved free-text date
decide; `news.py`'s classifier resolves the free-text date first, and when it
resolves, equality with the reference date alone decides (URL evidence is not
consulted), so a conflicting resolved text date rejects the record even when
its URL embeds the reference date. -/
theorem C1_classifier_precedence (today : PyDate) (a : ArticleData) :
    (MainPy.is_today_article true today a.url = true →
      MainPy.is_today_by_content true today a = true) ∧
    (MainPy.is_today_article true today a.url = false →
      ∀ d, MainPy.parse_article_date a.publish_date today = some d →
        MainPy.is_today_by_content true today a = decide (d = today)) ∧
    (∀ d, NewsPy.parse_article_date a.publish_date today = some d →
      NewsPy.is_today_by_content true today a = decide (d = today)) := by
  refine ⟨fun hurl => ?_, fun hurl d hparse => ?_, fun d hparse => ?_⟩
  · simp [MainPy.is_today_by_content, hurl]
  · have hpd : a.publish_date ≠ "" := by
      intro he
      rw [he] at hparse
      simp [MainPy.parse_article_date] at hparse
    simp [MainPy.is_today_by_content, hurl, hpd, hparse]
  · have hpd : a.publish_date ≠ "" := by
      intro he
      rw [he] at hparse
      simp [NewsPy.parse_article_date] at hparse
    simp [NewsPy.is_today_by_content, hpd, hparse]

/-- C1 witness: on the conflicting record `c1Record` and reference date
2025-07-28, `main.py`'s classifier (URL first) accepts, while `news.py`'s
classifier returns the equality test of the resolved text date 2025-07-27
with the reference date. -/
theorem C1_witness :
    MainPy.is_today_by_content true ⟨2025, 7, 28⟩ c1Record = true ∧
    NewsPy.is_today_by_content true ⟨2025, 7, 28⟩ c1Record =
      decide ((⟨2025, 7, 27⟩ : PyDate) = ⟨2025, 7, 28⟩) :=
  ⟨(C1_classifier_precedence ⟨2025, 7, 28⟩ c1Record).1 (by decide),
   (C1_classifier_precedence ⟨2025, 7, 28⟩ c1Record).2.2 ⟨2025, 7, 27⟩ (by decide)⟩

/-- C6: totality and failure semantics of the Date Resolver, for both files:
every resolution is either the reference date (relative-keyword branch) or a
date that passed the `datetime` constructor's calendar validation — resolving
is a total function with no error outcome — and inputs whose matched groups
fail numeric/calendar validation (month 13, day 30 of February) resolve to
`Unresolved` (`none`) rather than an error. -/
theorem C6_resolver_total (text : String) (ref : PyDate) :
    (∀ d, MainPy.parse_article_date text ref = some d →
      d = ref ∨ validDate d = true) ∧
    (∀ d, NewsPy.parse_article_date text ref = some d →
      d = ref ∨ validDate d = true) ∧
    MainPy.parse_article_date "2025-13-05" ref = none ∧
    NewsPy.parse_article_date "2025-13-05" ref = none ∧
    MainPy.parse_article_date "13/13/2025" ref = none ∧
    NewsPy.parse_article_date "13/13/2025" ref = none ∧
    MainPy.parse_article_date "February 30, 2025" ref = none ∧
    NewsPy.parse_article_date "February 30, 2025" ref = none := by
  refine ⟨fun d h => ?_, fun d h => ?_, rfl, rfl, rfl, rfl, rfl, rfl⟩
  · unfold MainPy.parse_article_date at h
    split at h
    · cases h
    · split at h
      · cases h
        exact Or.inl rfl
      · split at h
        · rename_i hiso
          cases h
          exact Or.inr (tryIsoPat_valid hiso)
        · split at h
          · rename_i hiso
            cases h
            exact Or.inr (tryIsoPat_valid hiso)
          · exact Or.inr (firstSomePats_valid h)
  · unfold NewsPy.parse_article_date at h
    split at h
    · cases h
    · split at h
      · cases h
        exact Or.inl rfl
      · exact Or.inr (firstSomePats_valid h)

/-- C6 witness: the validity disjunction instantiated at a successfully
resolved concrete input. -/
theorem C6_witness :
    (⟨2025, 7, 28⟩ : PyDate) = ⟨2024, 1, 1⟩ ∨ validDate ⟨2025, 7, 28⟩ = true :=
  (C6_resolver_total "July 28, 2025" ⟨2024, 1, 1⟩).1 ⟨2025, 7, 28⟩ (by decide)

theorem valid_url_chain_props {b1 b2 b3 b4 b5 x1 x2 : Bool}
    (h : (if b1 then false else if b2 then false else if b3 then false
          else if b4 then x1 else if b5 then x2 else false) = true) :
    b1 = false ∧ b2 = false ∧ b3 = false ∧ (b4 = true ∨ b5 = true) := by
  cases b1 <;> cases b2 <;> cases b3 <;> cases b4 <;> cases b5 <;> simp_all

/-- C7: URL validation, in both files.  Any URL the validator accepts (in
either mode) parses to a non-empty scheme and host, its host contains
`cnn.com`, its path contains none of the excluded substrings, and its path
contains one of the year tokens `2024`/`2025` (the prior and current year of
the code's hard-coded selectors) or the section segment `/world/`; hence any
URL violating one of these conditions is rejected. -/
theorem C7_url_validation (todayOnly : Bool) (today : PyDate) (url : String) :
    (MainPy.is_valid_article_url todayOnly today url = true →
      ((urlsplit3 url).scheme ≠ "" ∧ (urlsplit3 url).netloc ≠ "" ∧
       containsSub (urlsplit3 url).netloc.data "cnn.com".data = true ∧
       (∀ e ∈ excluded_paths, containsSub (urlsplit3 url).path.data e.data = false) ∧
       (containsSub (urlsplit3 url).path.data "2024".data = true ∨
        containsSub (urlsplit3 url).path.data "2025".data = true ∨
        containsSub (urlsplit3 url).path.data "/world/".data = true))) ∧
    (NewsPy.is_valid_article_url todayOnly today url = true →
      ((urlsplit3 url).scheme ≠ "" ∧ (urlsplit3 url).netloc ≠ "" ∧
       containsSub (urlsplit3 url).netloc.data "cnn.com".data = true ∧
       (∀ e ∈ excluded_paths, containsSub (urlsplit3 url).path.data e.data = false) ∧
       (containsSub (urlsplit3 url).path.data "2024".data = true ∨
        containsSub (urlsplit3 url).path.data "2025".data = true ∨
        containsSub (urlsplit3 url).path.data "/world/".data = true))) := by
  constructor <;> intro h
  · simp only [MainPy.is_valid_article_url] at h
    obtain ⟨h1, h2, h3, h45⟩ := valid_url_chain_props h
    simp only [Bool.or_eq_false_iff, decide_eq_false_iff_not] at h1
    simp only [Bool.not_eq_false'] at h2
    simp only [List.any_eq_false] at h3
    refine ⟨h1.1, h1.2, h2, fun e he => ?_, ?_⟩
    · exact Bool.not_eq_true _ |>.mp (h3 e he)
    · rcases h45 with h4 | h5
      · rcases Bool.or_eq_true_iff.mp h4 with ha | hb
        · exact Or.inl ha
        · exact Or.inr (Or.inl hb)
      · exact Or.inr (Or.inr h5)
  · simp only [NewsPy.is_valid_article_url] at h
    obtain ⟨h1, h2, h3, h45⟩ := valid_url_chain_props h
    simp only [Bool.or_eq_false_iff, decide_eq_false_iff_not] at h1
    simp only [Bool.not_eq_false'] at h2
    simp only [List.any_eq_false] at h3
    refine ⟨h1.1, h1.2, h2, fun e he => ?_, ?_⟩
    · exact Bool.not_eq_true _ |>.mp (h3 e he)
    · rcases h45 with h4 | h5
      · rcases Bool.or_eq_true_iff.mp h4 with ha | hb
        · exact Or.inl ha
        · exact Or.inr (Or.inl hb)
      · exact Or.inr (Or.inr h5)

/-- C7 witness: a well-formed article URL accepted in today-only mode, whose
parsed components satisfy all the validation conditions. -/
theorem C7_witness :
    containsSub
      (urlsplit3 "https://edition.cnn.com/2025/07/28/world/example-article").netloc.data
      "cnn.com".data = true ∧
    (∀ e ∈ excluded_paths,
      containsSub
        (urlsplit3 "https://edition.cnn.com/2025/07/28/world/example-article").path.data
        e.data = false) :=
  have hm := (C7_url_validation true ⟨2025, 7, 28⟩
      "https://edition.cnn.com/2025/07/28/world/example-article").1 (by decide)
  ⟨hm.2.2.1, hm.2.2.2.1⟩

theorem getPageGo_calls_le (fetch : Nat → Option String) (retries : Nat) :
    ∀ fuel attempt calls sleeps,
      (getPageGo fetch retries fuel attempt calls sleeps).2.1 ≤ calls + fuel
  | 0, _, calls, _ => by simp [getPageGo]
  | fuel + 1, attempt, calls, sleeps => by
    have ih := getPageGo_calls_le fetch retries fuel (attempt + 1) (calls + 1)
      (sleeps ++ [2 ^ attempt])
    cases hf : fetch attempt with
    | some p =>
      simp [getPageGo, hf]
      try omega
    | none =>
      simp only [getPageGo, hf]
      split
      · omega
      · simp
        try omega

theorem getPageGo_success (fetch : Nat → Option String) (retries : Nat) :
    ∀ k fuel attempt calls sleeps p,
      fuel = retries - attempt →
      attempt + k < retries →
      (∀ j, j < k → fetch (attempt + j) = none) →
      fetch (attempt + k) = some p →
      getPageGo fetch retries fuel attempt calls sleeps =
        (some p, calls + k + 1,
          sleeps ++ (List.range' attempt k).map (fun a => 2 ^ a))
  | 0, fuel, attempt, calls, sleeps, p, hfuel, hlt, _, hsucc => by
    obtain ⟨fuel2, rfl⟩ : ∃ fuel2, fuel = fuel2 + 1 := by
      cases fuel with
      | zero => omega
      | succ n => exact ⟨n, rfl⟩
    rw [Nat.add_zero] at hsucc
    simp [getPageGo, hsucc]
  | k + 1, fuel, attempt, calls, sleeps, p, hfuel, hlt, hnone, hsucc => by
    obtain ⟨fuel2, rfl⟩ : ∃ fuel2, fuel = fuel2 + 1 := by
      cases fuel with
      | zero => omega
      | succ n => exact ⟨n, rfl⟩
    have h0 : fetch attempt = none := by
      have := hnone 0 (by omega)
      rwa [Nat.add_zero] at this
    have hstep : attempt < retries - 1 := by omega
    unfold getPageGo
    rw [h0]
    simp only [if_pos hstep]
    have ih := getPageGo_success fetch retries k fuel2 (attempt + 1) (calls + 1)
      (sleeps ++ [2 ^ attempt]) p (by omega) (by omega)
      (fun j hj => by
        have := hnone (j + 1) (by omega)
        rwa [show attempt + (j + 1) = attempt + 1 + j by omega] at this)
      (by rwa [show attempt + 1 + k = attempt + (k + 1) by omega])
    rw [ih]
    rw [List.range'_succ]
    simp [Nat.add_assoc, Nat.add_comm, Nat.add_left_comm]

theorem getPageGo_allfail (fetch : Nat → Option String) (retries : Nat) :
    ∀ fuel attempt calls sleeps,
      fuel = retries - attempt →
      attempt < retries →
      (∀ j, attempt ≤ j → j < retries → fetch j = none) →
      getPageGo fetch retries fuel attempt calls sleeps =
        (none, calls + (retries - attempt),
          sleeps ++ (List.range' attempt (retries - attempt - 1)).map (fun a => 2 ^ a))
  | 0, attempt, calls, sleeps, hfuel, hlt, _ => by omega
  | fuel + 1, attempt, calls, sleeps, hfuel, hlt, hnone => by
    have h0 : fetch attempt = none := hnone attempt (Nat.le_refl _) hlt
    unfold getPageGo
    rw [h0]
    by_cases hstep : attempt < retries - 1
    · simp only [if_pos hstep]
      have ih := getPageGo_allfail fetch retries fuel (attempt + 1) (calls + 1)
        (sleeps ++ [2 ^ attempt]) (by omega) (by omega)
        (fun j hj1 hj2 => hnone j (by omega) hj2)
      rw [ih]
      have hn : retries - attempt - 1 = (retries - (attempt + 1) - 1) + 1 := by omega
      rw [hn, List.range'_succ]
      have hc : calls + 1 + (retries - (attempt + 1)) = calls + (retries - attempt) := by omega
      simp [hc]
    · simp only [if_neg hstep]
      have h1 : retries - attempt = 1 := by omega
      simp [h1]

/-- C8: the fetcher's retry contract (`get_page`, identical in both files),
abstracted over the per-attempt outcome `fetch`: at most `retries` calls are
ever made; if the first success is at attempt `i` (0-based, within budget)
the successful page is returned after exactly `i + 1` calls, having slept
`2^0, …, 2^(i-1)` seconds (base 1 × 2^attempt) before each subsequent
attempt; and if every attempt fails the result is `None` (a failure value,
not an exception) after exactly `retries` calls. -/
theorem C8_fetcher_retry (fetch : Nat → Option String) (retries : Nat) :
    (get_page fetch retries).2.1 ≤ retries ∧
    (∀ i p, i < retries → (∀ j, j < i → fetch j = none) → fetch i = some p →
      get_page fetch retries =
        (some p, i + 1, (List.range i).map (fun a => 2 ^ a))) ∧
    ((∀ j, j < retries → fetch j = none) →
      get_page fetch retries =
        (none, retries, (List.range (retries - 1)).map (fun a => 2 ^ a))) := by
  refine ⟨?_, fun i p hlt hnone hsucc => ?_, fun hall => ?_⟩
  · have := getPageGo_calls_le fetch retries retries 0 0 []
    simpa [get_page] using this
  · have := getPageGo_success fetch retries i retries 0 0 [] p
      (by omega) (by omega) (fun j hj => by simpa using hnone j hj)
      (by simpa using hsucc)
    simpa [get_page, List.range_eq_range'] using this
  · cases retries with
    | zero => simp [get_page, getPageGo]
    | succ n =>
      have := getPageGo_allfail fetch (n + 1) (n + 1) 0 0 []
        (by omega) (by omega) (fun j _ hj2 => hall j hj2)
      simpa [get_page, List.range_eq_range'] using this

/-- C8 witness: with a 3-attempt budget against an endpoint failing twice
then succeeding, the successful page is returned, exactly 3 calls are made,
and the back-off waits are 2^0 and 2^1. -/
theorem C8_witness :
    get_page (fun i => if i < 2 then none else some "page") 3 =
      (some "page", 3, (List.range 2).map (fun a => 2 ^ a)) :=
  (C8_fetcher_retry (fun i => if i < 2 then none else some "page") 3).2.1 2 "page"
    (by decide) (by decide) (by decide)

theorem mainScrapeLoop_skip (extract : String → Option ArticleData)
    (todayOnly : Bool) (today : PyDate) (u : String) (h : extract u = none) :
    ∀ pre post : List String,
      MainPy.scrapeLoop extract todayOnly today (pre ++ u :: post) =
        MainPy.scrapeLoop extract todayOnly today (pre ++ post)
  | [], post => by simp [MainPy.scrapeLoop, h]
  | x :: pre, post => by
    have ih := mainScrapeLoop_skip extract todayOnly today u h pre post
    cases hx : extract x with
    | some a => simp [MainPy.scrapeLoop, hx, ih]
    | none => simp [MainPy.scrapeLoop, hx, ih]

theorem newsScrapeLoop_skip (extract : String → Option ArticleData)
    (todayOnly : Bool) (today : PyDate) (u : String) (h : extract u = none) :
    ∀ pre post : List String,
      NewsPy.scrapeLoop extract todayOnly today (pre ++ u :: post) =
        NewsPy.scrapeLoop extract todayOnly today (pre ++ post)
  | [], post => by simp [NewsPy.scrapeLoop, h]
  | x :: pre, post => by
    have ih := newsScrapeLoop_skip extract todayOnly today u h pre post
    cases hx : extract x with
    | some a => simp [NewsPy.scrapeLoop, hx, ih]
    | none => simp [NewsPy.scrapeLoop, hx, ih]

theorem mainScrapeLoop_skip_untitled (extract : String → Option ArticleData)
    (todayOnly : Bool) (today : PyDate) (u : String) (a : ArticleData)
    (h : extract u = some a) (ht : a.title = "") :
    ∀ pre post : List String,
      MainPy.scrapeLoop extract todayOnly today (pre ++ u :: post) =
        MainPy.scrapeLoop extract todayOnly today (pre ++ post)
  | [], post => by simp [MainPy.scrapeLoop, h, ht]
  | x :: pre, post => by
    have ih := mainScrapeLoop_skip_untitled extract todayOnly today u a h ht pre post
    cases hx : extract x with
    | some b => simp [MainPy.scrapeLoop, hx, ih]
    | none => simp [MainPy.scrapeLoop, hx, ih]

/-- C9: run-level error atomicity, in both files.  A failed initial listing
fetch (`listingPage = none`) makes `scrape_world_news` return the empty
result, aborting the run; whereas a per-article failure — extraction
returning `None` (which is what a fetch failure for that URL produces), or a
record with an empty title — only skips that URL: the loop's result over any
candidate list containing the failing URL equals its result with that URL
removed, so all remaining candidates are still processed. -/
theorem C9_run_atomicity :
    (∀ (extractUrls : String → List String)
        (extract : String → Option ArticleData)
        (todayOnly : Bool) (today : PyDate) (maxArticles : Nat),
      MainPy.scrape_world_news none extractUrls extract todayOnly today maxArticles = [] ∧
      NewsPy.scrape_world_news none extractUrls extract todayOnly today maxArticles = []) ∧
    (∀ (extract : String → Option ArticleData) (todayOnly : Bool)
        (today : PyDate) (u : String) (pre post : List String),
      extract u = none →
      MainPy.scrapeLoop extract todayOnly today (pre ++ u :: post) =
        MainPy.scrapeLoop extract todayOnly today (pre ++ post) ∧
      NewsPy.scrapeLoop extract todayOnly today (pre ++ u :: post) =
        NewsPy.scrapeLoop extract todayOnly today (pre ++ post)) ∧
    (∀ (extract : String → Option ArticleData) (todayOnly : Bool)
        (today : PyDate) (u : String) (a : ArticleData) (pre post : List String),
      extract u = some a → a.title = "" →
      MainPy.scrapeLoop extract todayOnly today (pre ++ u :: post) =
        MainPy.scrapeLoop extract todayOnly today (pre ++ post)) := by
  refine ⟨fun _ _ _ _ _ => ⟨rfl, rfl⟩, fun extract t td u pre post h => ?_, ?_⟩
  · exact ⟨mainScrapeLoop_skip extract t td u h pre post,
      newsScrapeLoop_skip extract t td u h pre post⟩
  · intro extract t td u a pre post h ht
    exact mainScrapeLoop_skip_untitled extract t td u a h ht pre post

/-- C9 witness: with an extraction oracle failing on the URL `"bad"`, the
`main.py` loop over `["a", "bad", "b"]` equals the loop over `["a", "b"]`. -/
theorem C9_witness :
    MainPy.scrapeLoop c9Extract false ⟨2025, 7, 28⟩ (["a"] ++ "bad" :: ["b"]) =
      MainPy.scrapeLoop c9Extract false ⟨2025, 7, 28⟩ (["a"] ++ ["b"]) :=
  (C9_run_atomicity.2.1 c9Extract false ⟨2025, 7, 28⟩ "bad" ["a"] ["b"] (by decide)).1

